import Mathlib

/-!
# backendlogin: authentication handlers of `server.js`

A shallow embedding of the Express handlers of `src/server.js`.

* The MongoDB collections are lists of documents in insertion order;
  `Model.findOne` returns the first document that matches, `doc.save()` appends
  a document with a fresh `_id`.  The database is assumed reachable.
* A request body is a record of optional string fields (`none` is a field that
  is absent, i.e. `undefined` after destructuring).
* Everything a handler reads besides the store and the body is an explicit
  argument: the clock (`Date.now()`, milliseconds), the randomness bcrypt draws
  its salt from, the signing secret (`process.env.JWT_SECRET`, `""` when unset).
* `bcryptjs` and the compact serialisation of `jsonwebtoken` are parameters
  (`Bcrypt`, `JwtCodec`); what `jwt.sign` and `jwt.verify` do with the clock, the
  secret and `expiresIn` is written out.
* `try { ... } catch { res.status(500) }` is modelled by the `serverError`
  response at every place where a library call throws.
-/

namespace BackendLogin

/-! ## JavaScript values and responses -/

/-- Atomic JavaScript values that occur in response bodies and token claims. -/
inductive JVal where
  | undefined
  | str (s : String)
  | num (n : Nat)
  | oid (n : Nat)
  | err (msg : String)
  deriving DecidableEq, Repr

/-- An object literal with atomic values: its keys in order, with their values. -/
abbrev JObj := List (String × JVal)

/-- A top-level value of a response body. -/
inductive JField where
  | val (v : JVal)
  | obj (o : JObj)
  | arr (l : List JObj)
  deriving DecidableEq, Repr

/-- The object handed to `res.json`. -/
abbrev JBody := List (String × JField)

/-- An HTTP answer: `res.status(n).json(body)`; `res.json(body)` alone is status 200. -/
structure Response where
  status : Nat
  body : JBody
  deriving DecidableEq, Repr

/-- A field of a document or body as a JavaScript value. -/
def JVal.ofOpt : Option String → JVal
  | some s => .str s
  | none => .undefined

/-- JavaScript truthiness of a value that is a string or `undefined`. -/
def truthy : Option String → Bool
  | some s => s != ""
  | none => false

/-- The expression `a || d` for `a` a string or `undefined` and `d` a string. -/
def orDefault (a : Option String) (d : String) : String :=
  match a with
  | some s => if s = "" then d else s
  | none => d

/-- The body `{ message: m }`. -/
def message (m : String) : JBody := [("message", .val (.str m))]

/-- The answer of every `catch` block: `res.status(500).json({ message: "Server error", error })`. -/
def serverError (e : String) : Response :=
  ⟨500, [("message", .val (.str "Server error")), ("error", .val (.err e))]⟩

/-- The keys of a body, those of nested objects included. -/
def JBody.allKeys (b : JBody) : List String :=
  b.flatMap fun kv =>
    kv.1 :: (match kv.2 with
      | .val _ => []
      | .obj o => o.map Prod.fst
      | .arr l => l.flatMap fun o => o.map Prod.fst)

/-- The value of a top-level key of a body. -/
def JBody.get? (b : JBody) (k : String) : Option JField :=
  (b.find? fun kv => kv.1 == k).map Prod.snd

/-! ## Documents and the store -/

/-- A document of the `User` collection (`userSchema`); `orders` and `transactions`
are never written by any handler and are left out. -/
structure UserDoc where
  _id : Nat
  username : Option String
  email : Option String
  password : Option String
  role : String
  deriving DecidableEq, Repr

/-- A document of the `DeliveryBoy` collection (`deliveryBoySchema`).  The unique index
on `email` never fires in the handlers: each looks the email up before it saves. -/
structure DeliveryBoyDoc where
  _id : Nat
  name : Option String
  email : Option String
  password : Option String
  phone : Option String
  createdAt : Nat
  deriving DecidableEq, Repr

/-- A document of the `Owner` collection (`ownerSchema`). -/
structure OwnerDoc where
  _id : Nat
  username : Option String
  email : Option String
  password : Option String
  createdAt : Nat
  deriving DecidableEq, Repr

/-- A document of the `Product` collection (`productSchema`). -/
structure ProductDoc where
  _id : Nat
  name : Option String
  description : Option String
  price : Option Nat
  category : Option String
  image : Option String
  deriving DecidableEq, Repr

/-- The database: the four collections and the source of fresh `_id`s. -/
structure Store where
  users : List UserDoc
  deliveryBoys : List DeliveryBoyDoc
  owners : List OwnerDoc
  products : List ProductDoc
  nextId : Nat
  deriving DecidableEq, Repr

/-- The enum of `userSchema.role`. -/
def roleEnum : List String := ["user", "delivery", "owner"]

/-! ## Libraries -/

/-- The two calls made into `bcryptjs`, on strings: `hash s rounds r` with `r` the
randomness of the generated salt, and `compare s hash`. -/
structure Bcrypt where
  hash : String → Nat → Nat → String
  compare : String → String → Bool

/-- The call `bcrypt.hash(password, 10)`: rejects when the password is not a string. -/
def bcryptHash (bc : Bcrypt) (password : Option String) (r : Nat) : Except String String :=
  match password with
  | some p => .ok (bc.hash p 10 r)
  | none => .error "Illegal arguments: undefined, number"

/-- The call `bcrypt.compare(password, hash)`: rejects unless both are strings. -/
def bcryptCompare (bc : Bcrypt) (password hash : Option String) : Except String Bool :=
  match password, hash with
  | some p, some h => .ok (bc.compare p h)
  | _, _ => .error "Illegal arguments"

/-- The payload of a token: the claims given to `jwt.sign` and the two timestamps
(seconds) it adds. -/
structure JwtPayload where
  claims : JObj
  iat : Nat
  exp : Nat
  deriving DecidableEq, Repr

/-- A payload together with the key its signature was made with. -/
structure SignedJwt where
  payload : JwtPayload
  key : String
  deriving DecidableEq, Repr

/-- The compact serialisation of a signed token and its inverse. -/
structure JwtCodec where
  encode : SignedJwt → String
  decode : String → Option SignedJwt

/-- The characters of base64url. -/
def isBase64Url (c : Char) : Bool := c.isAlphanum || c == '-' || c == '_'

/-- The shape `jwt.verify` insists on before decoding: base64url segments, two dots. -/
def jwsShape (t : String) : Bool :=
  t.toList.all (fun c => isBase64Url c || c == '.') && t.toList.count '.' == 2

/-- The number of seconds of `expiresIn: "24h"`. -/
def expiresIn24h : Nat := 86400

/-- The call `jwt.sign(claims, secret, { expiresIn: "24h" })` at clock `now` (ms):
throws without a secret; `iat` is the clock in whole seconds, `exp` is `iat` plus
24 hours; claims that are `undefined` are not serialised. -/
def jwtSign (jw : JwtCodec) (claims : JObj) (secret : String) (now : Nat) : Except String String :=
  if secret = "" then .error "secretOrPrivateKey must have a value"
  else
    let iat := now / 1000
    .ok (jw.encode ⟨⟨claims.filter (fun kv => kv.2 != .undefined), iat, iat + expiresIn24h⟩, secret⟩)

/-- The call `jwt.verify(token, secret, callback)` at clock `now` (ms): the error or
the decoded payload the callback receives. -/
def jwtVerify (jw : JwtCodec) (token : String) (secret : String) (now : Nat) : Except String JwtPayload :=
  if !jwsShape token then .error "jwt malformed"
  else match jw.decode token with
    | none => .error "invalid token"
    | some t =>
      if secret = "" then .error "secret or public key must be provided"
      else if t.key ≠ secret then .error "invalid signature"
      else if now / 1000 ≥ t.payload.exp then .error "jwt expired"
      else .ok t.payload

/-! ## Middleware: `authenticateToken` -/

/-- The method `String.prototype.split` with a one-character separator. -/
def jsSplit (sep : Char) : List Char → List (List Char)
  | [] => [[]]
  | c :: cs =>
    if c = sep then [] :: jsSplit sep cs
    else match jsSplit sep cs with
      | [] => [[c]]
      | w :: ws => (c :: w) :: ws

/-- The expression `authHeader && authHeader.split(" ")[1]`; a header that is
absent and an index that is out of range both give `undefined`. -/
def headerToken (authHeader : Option String) : Option String :=
  match authHeader with
  | none => none
  | some h =>
    if h = "" then some ""
    else ((jsSplit ' ' h.toList).get? 1).map String.mk

/-- What the gate did with a request: the answer it sent (if any), the value it
gave `req.user` (if any) and how many times it called `next`. -/
structure GateResult where
  response : Option Response
  user : Option JwtPayload
  nextCalls : Nat
  deriving DecidableEq, Repr

/-- The middleware `authenticateToken` on a request with the given `authorization` header. -/
def authenticateToken (jw : JwtCodec) (secret : String) (now : Nat)
    (authHeader : Option String) : GateResult :=
  let token := headerToken authHeader
  if !truthy token then
    ⟨some ⟨401, message "Access token required"⟩, none, 0⟩
  else
    match jwtVerify jw (token.getD "") secret now with
    | .error _ => ⟨some ⟨403, message "Invalid token"⟩, none, 0⟩
    | .ok user => ⟨none, some user, 1⟩

/-! ## Request bodies -/

/-- The fields `POST /register` destructures from `req.body`. -/
structure RegisterBody where
  username : Option String
  email : Option String
  password : Option String
  role : Option String
  deriving DecidableEq, Repr

/-- The fields `POST /login` destructures from `req.body`. -/
structure LoginBody where
  email : Option String
  password : Option String
  role : Option String
  deriving DecidableEq, Repr

/-- The fields `POST /api/delivery/register` destructures from `req.body`. -/
structure DeliveryRegisterBody where
  name : Option String
  email : Option String
  password : Option String
  phone : Option String
  deriving DecidableEq, Repr

/-- The fields `POST /api/delivery/login` and `POST /owner/login` destructure from `req.body`. -/
structure CredentialsBody where
  email : Option String
  password : Option String
  deriving DecidableEq, Repr

/-- The fields `POST /products` destructures from `req.body`. -/
structure ProductBody where
  name : Option String
  description : Option String
  price : Option Nat
  category : Option String
  image : Option String
  deriving DecidableEq, Repr

/-! ## Handlers -/

/-- The query `User.findOne({ email })`. -/
def findUser (s : Store) (email : Option String) : Option UserDoc :=
  s.users.find? fun u => u.email == email

/-- The query `DeliveryBoy.findOne({ email })`. -/
def findDeliveryBoy (s : Store) (email : Option String) : Option DeliveryBoyDoc :=
  s.deliveryBoys.find? fun d => d.email == email

/-- The query `Owner.findOne({ email })`. -/
def findOwner (s : Store) (email : Option String) : Option OwnerDoc :=
  s.owners.find? fun o => o.email == email

/-- The query `Product.findOne({ name })`. -/
def findProduct (s : Store) (name : Option String) : Option ProductDoc :=
  s.products.find? fun p => p.name == name

/-- The handler of `POST /register`; `r` is the randomness of the bcrypt salt. -/
def register (bc : Bcrypt) (s : Store) (b : RegisterBody) (r : Nat) : Store × Response :=
  match findUser s b.email with
  | some _ => (s, ⟨400, message "User already exists"⟩)
  | none =>
    match bcryptHash bc b.password r with
    | .error e => (s, serverError e)
    | .ok hashedPassword =>
      let user : UserDoc :=
        ⟨s.nextId, b.username, b.email, some hashedPassword, orDefault b.role "user"⟩
      -- user.save(): the enum validator of the schema rejects any other role
      if user.role ∈ roleEnum then
        ({ s with users := s.users ++ [user], nextId := s.nextId + 1 },
          ⟨201, message "User created successfully"⟩)
      else (s, serverError "User validation failed: role")

/-- The handler of `POST /login`. -/
def login (bc : Bcrypt) (jw : JwtCodec) (secret : String) (s : Store) (b : LoginBody)
    (now : Nat) : Store × Response :=
  match findUser s b.email with
  | none => (s, ⟨400, message "Invalid credentials"⟩)
  | some user =>
    match bcryptCompare bc b.password user.password with
    | .error e => (s, serverError e)
    | .ok isMatch =>
      if !isMatch then (s, ⟨400, message "Invalid credentials"⟩)
      else if truthy b.role && some user.role != b.role then
        (s, ⟨400, message "Access denied for this role"⟩)
      else
        match jwtSign jw [("userId", .oid user._id), ("email", .ofOpt user.email),
            ("role", .str user.role)] secret now with
        | .error e => (s, serverError e)
        | .ok token =>
          (s, ⟨200, [("token", .val (.str token)),
            ("user", .obj [("id", .oid user._id), ("username", .ofOpt user.username),
              ("email", .ofOpt user.email), ("role", .str user.role)])]⟩)

/-- The handler of `POST /api/delivery/register`. -/
def deliveryRegister (bc : Bcrypt) (s : Store) (b : DeliveryRegisterBody) (r now : Nat) :
    Store × Response :=
  match findDeliveryBoy s b.email with
  | some _ => (s, ⟨400, message "Delivery boy already exists"⟩)
  | none =>
    match bcryptHash bc b.password r with
    | .error e => (s, serverError e)
    | .ok hashedPassword =>
      let newDeliveryBoy : DeliveryBoyDoc :=
        ⟨s.nextId, b.name, b.email, some hashedPassword, b.phone, now⟩
      ({ s with deliveryBoys := s.deliveryBoys ++ [newDeliveryBoy], nextId := s.nextId + 1 },
        ⟨201, message "Delivery boy registered successfully"⟩)

/-- The document `deliveryBoy` as `res.json` receives it (without the version key of Mongoose). -/
def DeliveryBoyDoc.toJObj (d : DeliveryBoyDoc) : JObj :=
  [("_id", .oid d._id), ("name", .ofOpt d.name), ("email", .ofOpt d.email),
    ("password", .ofOpt d.password), ("phone", .ofOpt d.phone), ("createdAt", .num d.createdAt)]

/-- The handler of `POST /api/delivery/login`. -/
def deliveryLogin (bc : Bcrypt) (jw : JwtCodec) (secret : String) (s : Store)
    (b : CredentialsBody) (now : Nat) : Store × Response :=
  match findDeliveryBoy s b.email with
  | none => (s, ⟨400, message "Invalid credentials"⟩)
  | some deliveryBoy =>
    match bcryptCompare bc b.password deliveryBoy.password with
    | .error e => (s, serverError e)
    | .ok isMatch =>
      if !isMatch then (s, ⟨400, message "Invalid credentials"⟩)
      else
        match jwtSign jw [("id", .oid deliveryBoy._id), ("role", .str "delivery")] secret now with
        | .error e => (s, serverError e)
        | .ok token =>
          (s, ⟨200, [("token", .val (.str token)), ("deliveryBoy", .obj deliveryBoy.toJObj)]⟩)

/-- The hardcoded owner email. -/
def ownerEmail : String := "am@gmail.com"

/-- The hardcoded owner password. -/
def ownerPassword : String := "12345"

/-- The handler of `POST /owner/login`. -/
def ownerLogin (bc : Bcrypt) (jw : JwtCodec) (secret : String) (s : Store)
    (b : CredentialsBody) (r now : Nat) : Store × Response :=
  if b.email = some ownerEmail ∧ b.password = some ownerPassword then
    -- the owner found, or the one created and saved
    let found : Store × Except String OwnerDoc :=
      match findOwner s b.email with
      | some owner => (s, .ok owner)
      | none =>
        match bcryptHash bc b.password r with
        | .error e => (s, .error e)
        | .ok hashedPassword =>
          let owner : OwnerDoc := ⟨s.nextId, some "Owner", b.email, some hashedPassword, now⟩
          ({ s with owners := s.owners ++ [owner], nextId := s.nextId + 1 }, .ok owner)
    match found with
    | (s1, .error e) => (s1, serverError e)
    | (s1, .ok owner) =>
      match jwtSign jw [("userId", .oid owner._id), ("email", .ofOpt owner.email),
          ("role", .str "owner")] secret now with
      | .error e => (s1, serverError e)
      | .ok token =>
        (s1, ⟨200, [("token", .val (.str token)),
          ("user", .obj [("id", .oid owner._id), ("username", .ofOpt owner.username),
            ("email", .ofOpt owner.email), ("role", .str "owner")])]⟩)
  else (s, ⟨400, message "Invalid owner credentials"⟩)

/-- A product document as `res.json` receives it (without the version key of Mongoose). -/
def ProductDoc.toJObj (p : ProductDoc) : JObj :=
  [("_id", .oid p._id), ("name", .ofOpt p.name), ("description", .ofOpt p.description),
    ("price", match p.price with | some n => .num n | none => .undefined),
    ("category", .ofOpt p.category), ("image", .ofOpt p.image)]

/-- The handler of `POST /products`. -/
def addProduct (s : Store) (b : ProductBody) : Store × Response :=
  let product : ProductDoc := ⟨s.nextId, b.name, b.description, b.price, b.category, b.image⟩
  ({ s with products := s.products ++ [product], nextId := s.nextId + 1 },
    ⟨201, [("message", .val (.str "Product added successfully")), ("product", .obj product.toJObj)]⟩)

/-- The array `sampleProducts` of `POST /add-sample-products`. -/
def sampleProducts : List ProductBody :=
  [⟨some "North Indian Thali", some "Full meal", some 250, some "thali",
      some "https://via.placeholder.com/150"⟩,
   ⟨some "South Indian Thali", some "Rice + Sambar", some 220, some "thali",
      some "https://via.placeholder.com/150"⟩,
   ⟨some "Punjabi Thali", some "Makki di Roti + Saag", some 280, some "thali",
      some "https://via.placeholder.com/150"⟩]

/-- The loop `for (let product of sampleProducts)`: the store and the array
`inserted` after the products given have been gone through. -/
def seedLoop : List ProductBody → Store → List ProductDoc → Store × List ProductDoc
  | [], s, inserted => (s, inserted)
  | product :: rest, s, inserted =>
    match findProduct s product.name with
    | some _ => seedLoop rest s inserted
    | none =>
      let newProduct : ProductDoc :=
        ⟨s.nextId, product.name, product.description, product.price, product.category,
          product.image⟩
      seedLoop rest { s with products := s.products ++ [newProduct], nextId := s.nextId + 1 }
        (inserted ++ [newProduct])

/-- The handler of `POST /add-sample-products`. -/
def addSampleProducts (s : Store) : Store × Response :=
  let out := seedLoop sampleProducts s []
  if out.2.length > 0 then
    (out.1, ⟨200, [("message", .val (.str "Sample products added successfully")),
      ("inserted", .arr (out.2.map ProductDoc.toJObj))]⟩)
  else (out.1, ⟨200, message "All sample products already exist, nothing added."⟩)

/-- The store after `POST /owner/login` with the hardcoded pair has been served once
for each `(randomness, clock)` of the list. -/
def ownerLogins (bc : Bcrypt) (jw : JwtCodec) (secret : String) : Store → List (Nat × Nat) → Store
  | s, [] => s
  | s, (r, now) :: rest =>
    ownerLogins bc jw secret
      (ownerLogin bc jw secret s ⟨some ownerEmail, some ownerPassword⟩ r now).1 rest

/-! ## Quantities the statements speak of -/

/-- The hardcoded owner credentials as a request body. -/
def ownerBody : CredentialsBody := ⟨some ownerEmail, some ownerPassword⟩

/-- The owner document the hardcoded login creates in store `s` with salt randomness
`r` at clock `now`. -/
def bootstrapOwner (bc : Bcrypt) (s : Store) (r now : Nat) : OwnerDoc :=
  ⟨s.nextId, some "Owner", some ownerEmail, some (bc.hash ownerPassword 10 r), now⟩

/-- The `user` object of the owner login answer for the owner with the given `_id`
that the hardcoded login created. -/
def ownerView (id : Nat) : JField :=
  .obj [("id", .oid id), ("username", .str "Owner"), ("email", .str ownerEmail),
    ("role", .str "owner")]

/-- How many owner documents carry the hardcoded email. -/
def ownerCount (s : Store) : Nat := s.owners.countP fun o => o.email == some ownerEmail

/-- How many product documents carry the given name. -/
def productCount (s : Store) (name : Option String) : Nat :=
  s.products.countP fun p => p.name == name

/-! ## Concrete instances -/

/-- A bcrypt that tags the password: used to run the handlers on examples. -/
def demoBcrypt : Bcrypt := ⟨fun p _ _ => "$2a$" ++ p, fun p h => h == "$2a$" ++ p⟩

/-- The empty database. -/
def emptyStore : Store := ⟨[], [], [], [], 0⟩

/-- The body of the registration scenario: `username "a"`, `email "a@x.com"`, `password "p1"`. -/
def scenarioBody : RegisterBody := ⟨some "a", some "a@x.com", some "p1", none⟩

/-- The scenario body with a role outside the enum of the schema. -/
def adminBody : RegisterBody := ⟨some "a", some "a@x.com", some "p1", some "admin"⟩

/-- A delivery registration body. -/
def demoDeliveryBody : DeliveryRegisterBody := ⟨some "d", some "d@x.com", some "p2", some "555"⟩

/-- The user the registration scenario stores under `demoBcrypt`. -/
def demoUser : UserDoc := ⟨0, some "a", some "a@x.com", some "$2a$p1", "user"⟩

/-- The delivery boy `demoDeliveryBody` stores under `demoBcrypt`. -/
def demoDeliveryBoy : DeliveryBoyDoc := ⟨1, some "d", some "d@x.com", some "$2a$p2", some "555", 0⟩

/-- A store with one user and one delivery boy. -/
def demoStore : Store := ⟨[demoUser], [demoDeliveryBoy], [], [], 2⟩

/-- The signing secret of the examples. -/
def demoSecret : String := "secret"

/-- The token `POST /login` signs for `demoUser` at clock 1500 ms. -/
def demoSigned : SignedJwt :=
  ⟨⟨[("userId", .oid 0), ("email", .str "a@x.com"), ("role", .str "user")], 1, 86401⟩, demoSecret⟩

/-- A codec that knows one token, `demoSigned`, serialised as `"h.p.s"`; every other
token is serialised as `"x.y.z"`, which does not decode. -/
def demoCodec : JwtCodec :=
  ⟨fun t => if t = demoSigned then "h.p.s" else "x.y.z",
   fun t => if t = "h.p.s" then some demoSigned else none⟩

/-- The scenario login with an empty string as role. -/
def emptyRoleLogin : LoginBody := ⟨some "a@x.com", some "p1", some ""⟩

/-- The scenario login asking for the role `owner`. -/
def ownerRoleLogin : LoginBody := ⟨some "a@x.com", some "p1", some "owner"⟩

/-- The scenario login without a role. -/
def scenarioLogin : LoginBody := ⟨some "a@x.com", some "p1", none⟩

/-- A store whose one owner has another email, with the hash of `"pw"` under `demoBcrypt`. -/
def otherOwnerStore : Store := ⟨[], [], [⟨0, some "Owner", some "o@x.com", some "$2a$pw", 0⟩], [], 1⟩

/-- The credentials of the owner stored in `otherOwnerStore`. -/
def otherOwnerBody : CredentialsBody := ⟨some "o@x.com", some "pw"⟩

/-- A product body named like the first sample product. -/
def thaliBody : ProductBody := ⟨some "North Indian Thali", some "Home style", some 200, none, none⟩

/-- The store after `POST /products` has been served twice with `thaliBody`. -/
def twoThaliStore : Store := (addProduct (addProduct emptyStore thaliBody).1 thaliBody).1

/-- The credentials of `demoDeliveryBoy`. -/
def demoDeliveryLogin : CredentialsBody := ⟨some "d@x.com", some "p2"⟩

/-- A login body with the email of `demoUser` and no password. -/
def noPasswordLogin : LoginBody := ⟨some "a@x.com", none, none⟩

/-- A delivery login body with the email of `demoDeliveryBoy` and no password. -/
def noPasswordDeliveryLogin : CredentialsBody := ⟨some "d@x.com", none⟩

/-- A store with one user and nothing else. -/
def userOnlyStore : Store := ⟨[demoUser], [], [], [], 1⟩

/-- A store with one delivery boy and nothing else. -/
def deliveryOnlyStore : Store := ⟨[], [demoDeliveryBoy], [], [], 2⟩

/-! ## Lookups -/

theorem findUser_of_mem (s : Store) (e : Option String) (h : ∃ u ∈ s.users, u.email = e) :
    ∃ u, findUser s e = some u := by
  obtain ⟨u, hu, he⟩ := h
  have : (findUser s e).isSome = true := by
    unfold findUser
    rw [List.find?_isSome]
    exact ⟨u, hu, by simp [he]⟩
  exact Option.isSome_iff_exists.mp this

theorem findDeliveryBoy_of_mem (s : Store) (e : Option String)
    (h : ∃ d ∈ s.deliveryBoys, d.email = e) : ∃ d, findDeliveryBoy s e = some d := by
  obtain ⟨d, hd, he⟩ := h
  have : (findDeliveryBoy s e).isSome = true := by
    unfold findDeliveryBoy
    rw [List.find?_isSome]
    exact ⟨d, hd, by simp [he]⟩
  exact Option.isSome_iff_exists.mp this

theorem findUser_none_of_forall (s : Store) (e : Option String)
    (h : ∀ u ∈ s.users, u.email ≠ e) : findUser s e = none := by
  unfold findUser
  rw [List.find?_eq_none]
  intro u hu
  simpa using h u hu

theorem findDeliveryBoy_none_of_forall (s : Store) (e : Option String)
    (h : ∀ d ∈ s.deliveryBoys, d.email ≠ e) : findDeliveryBoy s e = none := by
  unfold findDeliveryBoy
  rw [List.find?_eq_none]
  intro d hd
  simpa using h d hd

/-! ## C1: duplicate registration -/

/-- C1, counterexample: from the empty store (no record with the email) the body
`username "a", email "a@x.com", password "p1", role "admin"` is answered 500 both
times it is registered, not 201 and then 400: the role is outside the enum of the
schema, so `user.save()` rejects and nothing is stored. -/
theorem register_twice_invalid_role :
    (∀ u ∈ emptyStore.users, u.email ≠ adminBody.email) ∧
    (register demoBcrypt emptyStore adminBody 0).2.status = 500 ∧
    (register demoBcrypt (register demoBcrypt emptyStore adminBody 0).1 adminBody 1).2.status
      = 500 := by
  refine ⟨?_, ?_, ?_⟩
  · intro u hu
    simp [emptyStore] at hu
  · decide
  · decide

/-- A `POST /register` whose email is the email of a stored user. -/
theorem register_dup (bc : Bcrypt) (s : Store) (b : RegisterBody) (r : Nat)
    (hdup : ∃ u ∈ s.users, u.email = b.email) :
    register bc s b r = (s, ⟨400, message "User already exists"⟩) := by
  obtain ⟨u, hu⟩ := findUser_of_mem s b.email hdup
  simp [register, hu]

/-- A `POST /api/delivery/register` whose email is the email of a stored delivery boy. -/
theorem deliveryRegister_dup (bc : Bcrypt) (s : Store) (b : DeliveryRegisterBody) (r now : Nat)
    (hdup : ∃ d ∈ s.deliveryBoys, d.email = b.email) :
    deliveryRegister bc s b r now = (s, ⟨400, message "Delivery boy already exists"⟩) := by
  obtain ⟨d, hd⟩ := findDeliveryBoy_of_mem s b.email hdup
  simp [deliveryRegister, hd]

/-- The first `POST /register` of a body that is accepted: what it stores and answers. -/
theorem register_new (bc : Bcrypt) (s : Store) (b : RegisterBody) (p : String) (r : Nat)
    (hnew : ∀ u ∈ s.users, u.email ≠ b.email) (hp : b.password = some p)
    (hrole : orDefault b.role "user" ∈ roleEnum) :
    register bc s b r =
      ({ s with
          users := s.users ++ [⟨s.nextId, b.username, b.email, some (bc.hash p 10 r),
            orDefault b.role "user"⟩],
          nextId := s.nextId + 1 }, ⟨201, message "User created successfully"⟩) := by
  have hn := findUser_none_of_forall s b.email hnew
  simp [register, hn, hp, bcryptHash, hrole]

/-- The first `POST /api/delivery/register` of a body with a password: what it stores
and answers. -/
theorem deliveryRegister_new (bc : Bcrypt) (s : Store) (b : DeliveryRegisterBody) (p : String)
    (r now : Nat) (hnew : ∀ d ∈ s.deliveryBoys, d.email ≠ b.email) (hp : b.password = some p) :
    deliveryRegister bc s b r now =
      ({ s with
          deliveryBoys := s.deliveryBoys ++
            [⟨s.nextId, b.name, b.email, some (bc.hash p 10 r), b.phone, now⟩],
          nextId := s.nextId + 1 }, ⟨201, message "Delivery boy registered successfully"⟩) := by
  have hn := findDeliveryBoy_none_of_forall s b.email hnew
  simp [deliveryRegister, hn, hp, bcryptHash]

/-- C1, amended: on every store, a `POST /register` whose email is the email of a
stored user is answered 400 "User already exists" and leaves the store as it was;
on every store, a `POST /api/delivery/register` whose email is the email of a stored
delivery boy is answered 400 "Delivery boy already exists" and leaves the store as
it was.  From every store without the email, a `/register` body with a password and
a role that is absent, empty or in the enum is answered 201 and, registered again,
400 with the store as the first registration left it; likewise, from every store
without the email, a delivery body with a password. -/
theorem register_conflict (bc : Bcrypt) :
    (∀ (s : Store) (b : RegisterBody) (r : Nat), (∃ u ∈ s.users, u.email = b.email) →
      register bc s b r = (s, ⟨400, message "User already exists"⟩)) ∧
    (∀ (s : Store) (b : DeliveryRegisterBody) (r now : Nat),
      (∃ d ∈ s.deliveryBoys, d.email = b.email) →
      deliveryRegister bc s b r now = (s, ⟨400, message "Delivery boy already exists"⟩)) ∧
    (∀ (s : Store) (b : RegisterBody) (p : String) (r1 r2 : Nat),
      (∀ u ∈ s.users, u.email ≠ b.email) → b.password = some p →
      orDefault b.role "user" ∈ roleEnum →
      (register bc s b r1).2 = ⟨201, message "User created successfully"⟩ ∧
      register bc (register bc s b r1).1 b r2
        = ((register bc s b r1).1, ⟨400, message "User already exists"⟩)) ∧
    (∀ (s : Store) (b : DeliveryRegisterBody) (p : String) (r1 r2 now1 now2 : Nat),
      (∀ d ∈ s.deliveryBoys, d.email ≠ b.email) → b.password = some p →
      (deliveryRegister bc s b r1 now1).2
        = ⟨201, message "Delivery boy registered successfully"⟩ ∧
      deliveryRegister bc (deliveryRegister bc s b r1 now1).1 b r2 now2
        = ((deliveryRegister bc s b r1 now1).1,
            ⟨400, message "Delivery boy already exists"⟩)) := by
  refine ⟨fun s b r h => register_dup bc s b r h,
    fun s b r now h => deliveryRegister_dup bc s b r now h, ?_, ?_⟩
  · intro s b p r1 r2 hnew hp hrole
    have e1 := register_new bc s b p r1 hnew hp hrole
    refine ⟨by rw [e1], ?_⟩
    rw [e1]
    exact register_dup bc _ b r2
      ⟨UserDoc.mk s.nextId b.username b.email (some (bc.hash p 10 r1))
        (orDefault b.role "user"), by simp, rfl⟩
  · intro s b p r1 r2 now1 now2 hnew hp
    have e2 := deliveryRegister_new bc s b p r1 now1 hnew hp
    refine ⟨by rw [e2], ?_⟩
    rw [e2]
    exact deliveryRegister_dup bc _ b r2 now2
      ⟨DeliveryBoyDoc.mk s.nextId b.name b.email (some (bc.hash p 10 r1)) b.phone now1,
        by simp, rfl⟩

/-- C1, witness: the registration scenario from the empty store, 201 and then 400;
a conflict on a store that holds the user and no delivery boy, and one on a store
that holds the delivery boy and no user. -/
theorem register_conflict_witness :
    ((register demoBcrypt emptyStore scenarioBody 0).2
        = ⟨201, message "User created successfully"⟩ ∧
      register demoBcrypt (register demoBcrypt emptyStore scenarioBody 0).1 scenarioBody 1
        = ((register demoBcrypt emptyStore scenarioBody 0).1,
            ⟨400, message "User already exists"⟩)) ∧
    register demoBcrypt userOnlyStore scenarioBody 0
      = (userOnlyStore, ⟨400, message "User already exists"⟩) ∧
    deliveryRegister demoBcrypt deliveryOnlyStore demoDeliveryBody 0 0
      = (deliveryOnlyStore, ⟨400, message "Delivery boy already exists"⟩) :=
  ⟨(register_conflict demoBcrypt).2.2.1 emptyStore scenarioBody "p1" 0 1
      (by intro u hu; simp [emptyStore] at hu) rfl (by decide),
    (register_conflict demoBcrypt).1 userOnlyStore scenarioBody 0
      ⟨demoUser, by decide, by decide⟩,
    (register_conflict demoBcrypt).2.1 deliveryOnlyStore demoDeliveryBody 0 0
      ⟨demoDeliveryBoy, by decide, by decide⟩⟩

/-! ## C2: login with a role that differs from the stored one -/

/-- C2, counterexample: `demoUser` has role `"user"`; the login body carries the
right password and the role `""`, which differs from `"user"`, and is answered 200
with a token: the guard `role && ...` skips an empty role. -/
theorem login_empty_role_passes :
    findUser demoStore emptyRoleLogin.email = some demoUser ∧
    bcryptCompare demoBcrypt emptyRoleLogin.password demoUser.password = .ok true ∧
    emptyRoleLogin.role ≠ some demoUser.role ∧
    (login demoBcrypt demoCodec demoSecret demoStore emptyRoleLogin 1500).2.status = 200 ∧
    (login demoBcrypt demoCodec demoSecret demoStore emptyRoleLogin 1500).2.body.get? "token"
      = some (.val (.str "h.p.s")) := by
  refine ⟨by decide, rfl, by decide, by decide, by decide⟩

/-- C2, amended: when the user found for the email has a stored hash that the
password of the body matches, and the body carries a non-empty role that differs
from the stored role, `POST /login` answers 400 "Access denied for this role",
leaves the store as it was and the answer has no token. -/
theorem login_role_mismatch (bc : Bcrypt) (jw : JwtCodec) (secret : String) (s : Store)
    (b : LoginBody) (now : Nat) (u : UserDoc) (p h role : String)
    (hu : findUser s b.email = some u) (hp : b.password = some p) (hh : u.password = some h)
    (hm : bc.compare p h = true) (hr : b.role = some role) (hne : role ≠ "")
    (hdiff : role ≠ u.role) :
    login bc jw secret s b now = (s, ⟨400, message "Access denied for this role"⟩) ∧
    (login bc jw secret s b now).2.body.get? "token" = none := by
  have e : login bc jw secret s b now = (s, ⟨400, message "Access denied for this role"⟩) := by
    simp [login, hu, hp, hh, hm, hr, bcryptCompare, truthy, hne, Ne.symm hdiff]
  refine ⟨e, ?_⟩
  rw [e]
  rfl

/-- C2, witness: `demoUser` (role `"user"`) logging in with the right password and
the role `"owner"`. -/
theorem login_role_mismatch_witness :
    login demoBcrypt demoCodec demoSecret demoStore ownerRoleLogin 1500
      = (demoStore, ⟨400, message "Access denied for this role"⟩) :=
  (login_role_mismatch demoBcrypt demoCodec demoSecret demoStore ownerRoleLogin 1500 demoUser
    "p1" "$2a$p1" "owner" (by decide) rfl rfl (by decide) rfl (by decide) (by decide)).1

/-! ## C3: owner login accepts the hardcoded pair only -/

/-- C3: with a signing secret configured, `POST /owner/login` answers 200 with a
token exactly when the body carries the hardcoded email and password; for every
other pair the answer is 400 "Invalid owner credentials" whatever the store holds
(so also when the pair is that of a stored owner), and the store stays as it was. -/
theorem ownerLogin_hardcoded_only (bc : Bcrypt) (jw : JwtCodec) (secret : String) (s : Store)
    (b : CredentialsBody) (r now : Nat) (hk : secret ≠ "") :
    (((ownerLogin bc jw secret s b r now).2.status = 200 ∧
        ∃ tok, (ownerLogin bc jw secret s b r now).2.body.get? "token" = some (.val (.str tok)))
      ↔ (b.email = some ownerEmail ∧ b.password = some ownerPassword)) ∧
    (¬ (b.email = some ownerEmail ∧ b.password = some ownerPassword) →
      ∀ s2 : Store, ownerLogin bc jw secret s2 b r now
        = (s2, ⟨400, message "Invalid owner credentials"⟩)) := by
  by_cases hpair : b.email = some ownerEmail ∧ b.password = some ownerPassword
  · refine ⟨⟨fun _ => hpair, fun _ => ?_⟩, fun hn => absurd hpair hn⟩
    obtain ⟨he, hp⟩ := hpair
    cases hf : findOwner s (some ownerEmail) <;>
      simp [ownerLogin, he, hp, hf, bcryptHash, jwtSign, hk, JBody.get?]
  · have e : ∀ s2 : Store, ownerLogin bc jw secret s2 b r now
        = (s2, ⟨400, message "Invalid owner credentials"⟩) := by
      intro s2
      simp [ownerLogin, hpair]
    refine ⟨⟨fun h => ?_, fun h => absurd h hpair⟩, fun _ => e⟩
    rw [e s] at h
    simp at h

/-- C3, witness: the credentials of an owner that is stored, with the password its
hash was made from, are turned away. -/
theorem ownerLogin_hardcoded_only_witness :
    bcryptCompare demoBcrypt otherOwnerBody.password (some "$2a$pw") = .ok true ∧
    ownerLogin demoBcrypt demoCodec demoSecret otherOwnerStore otherOwnerBody 0 0
      = (otherOwnerStore, ⟨400, message "Invalid owner credentials"⟩) :=
  ⟨rfl, (ownerLogin_hardcoded_only demoBcrypt demoCodec demoSecret otherOwnerStore otherOwnerBody
    0 0 (by decide)).2 (by decide) otherOwnerStore⟩

/-! ## C4: repeated owner logins -/

theorem findOwner_none_of_forall (s : Store) (e : Option String)
    (h : ∀ o ∈ s.owners, o.email ≠ e) : findOwner s e = none := by
  unfold findOwner
  rw [List.find?_eq_none]
  intro o ho
  simpa using h o ho

/-- The hardcoded login on a store that has no owner with the hardcoded email. -/
theorem ownerLogin_first (bc : Bcrypt) (jw : JwtCodec) (secret : String) (s : Store)
    (r now : Nat) (hk : secret ≠ "") (hf : findOwner s (some ownerEmail) = none) :
    ∃ tok, ownerLogin bc jw secret s ownerBody r now =
      ({ s with owners := s.owners ++ [bootstrapOwner bc s r now], nextId := s.nextId + 1 },
        ⟨200, [("token", .val (.str tok)), ("user", ownerView s.nextId)]⟩) := by
  simp [ownerLogin, ownerBody, hf, bcryptHash, jwtSign, hk, bootstrapOwner, ownerView, JVal.ofOpt]

/-- The hardcoded login on a store where the lookup finds an owner. -/
theorem ownerLogin_found (bc : Bcrypt) (jw : JwtCodec) (secret : String) (s : Store)
    (r now : Nat) (o : OwnerDoc) (hk : secret ≠ "") (hf : findOwner s (some ownerEmail) = some o) :
    ∃ tok, ownerLogin bc jw secret s ownerBody r now =
      (s, ⟨200, [("token", .val (.str tok)),
        ("user", .obj [("id", .oid o._id), ("username", .ofOpt o.username),
          ("email", .ofOpt o.email), ("role", .str "owner")])]⟩) := by
  simp [ownerLogin, ownerBody, hf, jwtSign, hk]

/-- The store after the hardcoded login, whatever the secret. -/
theorem ownerLogin_store (bc : Bcrypt) (jw : JwtCodec) (secret : String) (s : Store)
    (r now : Nat) :
    (ownerLogin bc jw secret s ownerBody r now).1 =
      match findOwner s (some ownerEmail) with
      | some _ => s
      | none => { s with owners := s.owners ++ [bootstrapOwner bc s r now],
                         nextId := s.nextId + 1 } := by
  cases hf : findOwner s (some ownerEmail) <;>
    by_cases hk : secret = "" <;>
    simp [ownerLogin, ownerBody, hf, bcryptHash, jwtSign, hk, bootstrapOwner]

/-- The lookup in a store whose owners are those without the hardcoded email
followed by the created one. -/
theorem findOwner_after_first (s2 : Store) (l : List OwnerDoc) (o : OwnerDoc)
    (hl : ∀ x ∈ l, x.email ≠ some ownerEmail) (ho : o.email = some ownerEmail)
    (h2 : s2.owners = l ++ [o]) : findOwner s2 (some ownerEmail) = some o := by
  unfold findOwner
  rw [h2, List.find?_append]
  have : l.find? (fun x => x.email == some ownerEmail) = none := by
    rw [List.find?_eq_none]
    intro x hx
    simpa using hl x hx
  simp [this, ho]

theorem ownerLogins_fixed (bc : Bcrypt) (jw : JwtCodec) (secret : String) (o : OwnerDoc)
    (inputs : List (Nat × Nat)) :
    ∀ s : Store, findOwner s (some ownerEmail) = some o →
      ownerLogins bc jw secret s inputs = s := by
  induction inputs with
  | nil => intro s _; rfl
  | cons x rest ih =>
    intro s hf
    obtain ⟨r, now⟩ := x
    have e := ownerLogin_store bc jw secret s r now
    rw [hf] at e
    simp only [ownerBody] at e
    simp only [ownerLogins]
    rw [e]
    exact ih s hf

/-- C4: from a store with no owner under the hardcoded email and with a signing
secret configured, the first hardcoded `POST /owner/login` is answered 200 and adds
one owner document (username "Owner", the hardcoded email) at the end of the
collection; on any later store with that owner collection the hardcoded login is
answered 200 with the `_id` of that document and changes nothing; and after any
one or more hardcoded logins in a row exactly one owner has the hardcoded email. -/
theorem ownerLogin_no_duplicates (bc : Bcrypt) (jw : JwtCodec) (secret : String) (s : Store)
    (r now : Nat) (hk : secret ≠ "") (hnone : ∀ o ∈ s.owners, o.email ≠ some ownerEmail) :
    (∃ tok, ownerLogin bc jw secret s ownerBody r now =
      ({ s with owners := s.owners ++ [bootstrapOwner bc s r now], nextId := s.nextId + 1 },
        ⟨200, [("token", .val (.str tok)), ("user", ownerView s.nextId)]⟩)) ∧
    (bootstrapOwner bc s r now).username = some "Owner" ∧
    (bootstrapOwner bc s r now).email = some ownerEmail ∧
    (∀ (s2 : Store) (r2 now2 : Nat), s2.owners = s.owners ++ [bootstrapOwner bc s r now] →
      ∃ tok, ownerLogin bc jw secret s2 ownerBody r2 now2 =
        (s2, ⟨200, [("token", .val (.str tok)), ("user", ownerView s.nextId)]⟩)) ∧
    (∀ (rest : List (Nat × Nat)),
      (ownerLogins bc jw secret s ((r, now) :: rest)).owners
          = s.owners ++ [bootstrapOwner bc s r now] ∧
        ownerCount (ownerLogins bc jw secret s ((r, now) :: rest)) = 1) := by
  have hf := findOwner_none_of_forall s (some ownerEmail) hnone
  refine ⟨ownerLogin_first bc jw secret s r now hk hf, rfl, rfl, ?_, ?_⟩
  · intro s2 r2 now2 h2
    have hf2 := findOwner_after_first s2 s.owners (bootstrapOwner bc s r now) hnone rfl h2
    obtain ⟨tok, e⟩ := ownerLogin_found bc jw secret s2 r2 now2 _ hk hf2
    exact ⟨tok, by rw [e]; simp [bootstrapOwner, ownerView, JVal.ofOpt]⟩
  · intro rest
    have e := ownerLogin_store bc jw secret s r now
    rw [hf] at e
    simp only [ownerBody] at e
    have hf1 : findOwner { s with owners := s.owners ++ [bootstrapOwner bc s r now],
                                  nextId := s.nextId + 1 } (some ownerEmail)
        = some (bootstrapOwner bc s r now) :=
      findOwner_after_first _ s.owners _ hnone rfl rfl
    have hfix := ownerLogins_fixed bc jw secret _ rest _ hf1
    have hall : (ownerLogins bc jw secret s ((r, now) :: rest)).owners
        = s.owners ++ [bootstrapOwner bc s r now] := by
      simp only [ownerLogins]
      rw [e, hfix]
    refine ⟨hall, ?_⟩
    have h0 : s.owners.countP (fun o => o.email == some ownerEmail) = 0 := by
      rw [List.countP_eq_zero]
      intro o ho
      simpa using hnone o ho
    simp [ownerCount, hall, List.countP_append, h0, bootstrapOwner]

/-- C4, witness: three owner logins in a row from the empty store leave one owner. -/
theorem ownerLogin_no_duplicates_witness :
    ownerCount (ownerLogins demoBcrypt demoCodec demoSecret emptyStore [(0, 10), (1, 20), (2, 30)])
      = 1 :=
  ((ownerLogin_no_duplicates demoBcrypt demoCodec demoSecret emptyStore 0 10 (by decide)
    (by intro o ho; simp [emptyStore] at ho)).2.2.2.2 [(1, 20), (2, 30)]).2

/-! ## C5: seeding the sample products -/

theorem findProduct_eq_none_iff (s : Store) (n : Option String) :
    findProduct s n = none ↔ productCount s n = 0 := by
  unfold findProduct productCount
  rw [List.find?_eq_none, List.countP_eq_zero]

/-- Products that the loop finds are left alone. -/
theorem seedLoop_all_found (l : List ProductBody) (s : Store) (ins : List ProductDoc)
    (h : ∀ b ∈ l, findProduct s b.name ≠ none) : seedLoop l s ins = (s, ins) := by
  induction l with
  | nil => rfl
  | cons b rest ih =>
    have hb := h b (List.mem_cons_self _ _)
    obtain ⟨p, hp⟩ := Option.ne_none_iff_exists'.mp hb
    simp only [seedLoop, hp]
    exact ih fun x hx => h x (List.mem_cons_of_mem _ hx)

/-- The number of products of a name after the loop: one where there was none and
the name is among the products gone through, else what it was. -/
theorem seedLoop_count (n : Option String) (l : List ProductBody) :
    ∀ (s : Store) (ins : List ProductDoc), (l.map ProductBody.name).Nodup →
      productCount (seedLoop l s ins).1 n =
        if productCount s n = 0 ∧ n ∈ l.map ProductBody.name then 1 else productCount s n := by
  induction l with
  | nil => intro s ins _; simp [seedLoop]
  | cons b rest ih =>
    intro s ins hnd
    rw [List.map_cons, List.nodup_cons] at hnd
    obtain ⟨hb, hrest⟩ := hnd
    cases hf : findProduct s b.name with
    | some p =>
      have hpos : productCount s b.name ≠ 0 := by
        intro h0
        rw [← findProduct_eq_none_iff, hf] at h0
        exact Option.noConfusion h0
      simp only [seedLoop, hf]
      rw [ih s ins hrest]
      by_cases hn : n = b.name
      · subst hn
        simp [hpos]
      · simp [hn]
    | none =>
      have hzero : productCount s b.name = 0 := (findProduct_eq_none_iff s b.name).mp hf
      simp only [seedLoop, hf]
      rw [ih _ _ hrest]
      by_cases hn : n = b.name
      · subst hn
        have hz := hzero
        simp only [productCount] at hz
        simp [productCount, List.countP_append, hb, hz]
      · have hne : ¬ b.name = n := fun h => hn h.symm
        simp [productCount, List.countP_append, hn, hne]

/-- After the loop every product gone through is found. -/
theorem seedLoop_found (l : List ProductBody) (hnd : (l.map ProductBody.name).Nodup)
    (s : Store) (ins : List ProductDoc) :
    ∀ b ∈ l, findProduct (seedLoop l s ins).1 b.name ≠ none := by
  intro b hb
  rw [Ne, findProduct_eq_none_iff, seedLoop_count b.name l s ins hnd]
  have hmem : b.name ∈ l.map ProductBody.name := List.mem_map_of_mem _ hb
  by_cases h0 : productCount s b.name = 0
  · simp [h0, hmem]
  · simp [h0]

theorem sampleProducts_nodup : (sampleProducts.map ProductBody.name).Nodup := by
  decide

/-- C5, counterexample: after `POST /products` has stored two products named
"North Indian Thali", two calls of `POST /add-sample-products` leave two records of
that name, not one. -/
theorem seed_keeps_duplicates :
    productCount twoThaliStore (some "North Indian Thali") = 2 ∧
    productCount (addSampleProducts (addSampleProducts twoThaliStore).1).1
      (some "North Indian Thali") = 2 := by
  decide

/-- C5, amended: for every store, a second `POST /add-sample-products` changes
nothing and answers "All sample products already exist, nothing added."; after the
calls each sample product name has one record if it had none before and as many
records as before otherwise (so at least one, and one exactly when it had at most
one); names that are not sample product names keep their records. -/
theorem addSampleProducts_idempotent (s : Store) :
    addSampleProducts (addSampleProducts s).1
      = ((addSampleProducts s).1,
          ⟨200, message "All sample products already exist, nothing added."⟩) ∧
    (∀ b ∈ sampleProducts,
      productCount (addSampleProducts (addSampleProducts s).1).1 b.name
        = if productCount s b.name = 0 then 1 else productCount s b.name) ∧
    (∀ n, n ∉ sampleProducts.map ProductBody.name →
      productCount (addSampleProducts (addSampleProducts s).1).1 n = productCount s n) := by
  have h1 : (addSampleProducts s).1 = (seedLoop sampleProducts s []).1 := by
    simp only [addSampleProducts]
    split <;> rfl
  have h2 : addSampleProducts (addSampleProducts s).1
      = ((addSampleProducts s).1,
          ⟨200, message "All sample products already exist, nothing added."⟩) := by
    have hfound := seedLoop_found sampleProducts sampleProducts_nodup s []
    rw [h1]
    have e := seedLoop_all_found sampleProducts (seedLoop sampleProducts s []).1 [] hfound
    simp [addSampleProducts, e]
  refine ⟨h2, ?_, ?_⟩
  · intro b hb
    rw [h2, h1, seedLoop_count b.name sampleProducts s [] sampleProducts_nodup]
    simp [List.mem_map_of_mem ProductBody.name hb]
  · intro n hn
    rw [h2, h1, seedLoop_count n sampleProducts s [] sampleProducts_nodup]
    simp [hn]

/-! ## C6: the answer of a successful login -/

/-- C6: when `POST /login` answers 200, a user was found for the email, the store
is as it was and the body is the token signed over `userId`, `email`, `role`
together with a `user` object of the four fields `id`, `username`, `email`, `role`
of that user; no key of the body is `password`. -/
theorem login_success_body (bc : Bcrypt) (jw : JwtCodec) (secret : String) (s : Store)
    (b : LoginBody) (now : Nat) (h : (login bc jw secret s b now).2.status = 200) :
    ∃ u tok, findUser s b.email = some u ∧
      jwtSign jw [("userId", .oid u._id), ("email", .ofOpt u.email), ("role", .str u.role)]
        secret now = .ok tok ∧
      login bc jw secret s b now =
        (s, ⟨200, [("token", .val (.str tok)),
          ("user", .obj [("id", .oid u._id), ("username", .ofOpt u.username),
            ("email", .ofOpt u.email), ("role", .str u.role)])]⟩) ∧
      (login bc jw secret s b now).2.body.allKeys
        = ["token", "user", "id", "username", "email", "role"] ∧
      "password" ∉ (login bc jw secret s b now).2.body.allKeys := by
  unfold login at h ⊢
  cases hf : findUser s b.email with
  | none => simp [hf] at h
  | some u =>
    simp only [hf] at h ⊢
    cases hc : bcryptCompare bc b.password u.password with
    | error e => simp [hc, serverError] at h
    | ok isMatch =>
      simp only [hc] at h ⊢
      cases isMatch with
      | false => simp at h
      | true =>
        by_cases hr : (truthy b.role && some u.role != b.role) = true
        · simp [hr] at h
        · cases hs : jwtSign jw [("userId", .oid u._id), ("email", .ofOpt u.email),
              ("role", .str u.role)] secret now with
          | error e => simp [hr, hs, serverError] at h
          | ok tok =>
            refine ⟨u, tok, rfl, hs, ?_⟩
            simp [hr, hs, JBody.allKeys]

/-- C6, witness: the scenario login of `demoUser`. -/
theorem login_success_body_witness :
    ∃ u tok, findUser demoStore scenarioLogin.email = some u ∧
      jwtSign demoCodec [("userId", .oid u._id), ("email", .ofOpt u.email), ("role", .str u.role)]
        demoSecret 1500 = .ok tok ∧
      login demoBcrypt demoCodec demoSecret demoStore scenarioLogin 1500 =
        (demoStore, ⟨200, [("token", .val (.str tok)),
          ("user", .obj [("id", .oid u._id), ("username", .ofOpt u.username),
            ("email", .ofOpt u.email), ("role", .str u.role)])]⟩) ∧
      (login demoBcrypt demoCodec demoSecret demoStore scenarioLogin 1500).2.body.allKeys
        = ["token", "user", "id", "username", "email", "role"] ∧
      "password" ∉ (login demoBcrypt demoCodec demoSecret demoStore scenarioLogin 1500).2.body.allKeys :=
  login_success_body demoBcrypt demoCodec demoSecret demoStore scenarioLogin 1500 (by decide)

/-! ## C7: invalid credentials -/

/-- The answer "Invalid credentials" of `POST /login`, characterised. -/
theorem login_invalid_iff (bc : Bcrypt) (jw : JwtCodec) (secret : String) (s : Store)
    (b : LoginBody) (now : Nat) :
    (login bc jw secret s b now).2 = ⟨400, message "Invalid credentials"⟩ ↔
      (findUser s b.email = none ∨
        ∃ u p h, findUser s b.email = some u ∧ b.password = some p ∧ u.password = some h ∧
          bc.compare p h = false) := by
  unfold login
  cases hf : findUser s b.email with
  | none => simp
  | some u =>
    cases hp : b.password with
    | none => simp [bcryptCompare, serverError]
    | some p =>
      cases hh : u.password with
      | none => simp [bcryptCompare, hf, hp, hh, serverError]
      | some h =>
        cases hm : bc.compare p h with
        | false => simp [bcryptCompare, hf, hp, hh, hm]
        | true =>
          by_cases hr : (truthy b.role && some u.role != b.role) = true
          · simp [bcryptCompare, hf, hp, hh, hm, hr, message]
          · by_cases hk : secret = ""
            · simp [bcryptCompare, hf, hp, hh, hm, hr, jwtSign, hk, serverError]
            · simp [bcryptCompare, hf, hp, hh, hm, hr, jwtSign, hk]

/-- The answer "Invalid credentials" of `POST /api/delivery/login`, characterised. -/
theorem deliveryLogin_invalid_iff (bc : Bcrypt) (jw : JwtCodec) (secret : String) (s : Store)
    (b : CredentialsBody) (now : Nat) :
    (deliveryLogin bc jw secret s b now).2 = ⟨400, message "Invalid credentials"⟩ ↔
      (findDeliveryBoy s b.email = none ∨
        ∃ d p h, findDeliveryBoy s b.email = some d ∧ b.password = some p ∧
          d.password = some h ∧ bc.compare p h = false) := by
  unfold deliveryLogin
  cases hf : findDeliveryBoy s b.email with
  | none => simp
  | some d =>
    cases hp : b.password with
    | none => simp [bcryptCompare, serverError]
    | some p =>
      cases hh : d.password with
      | none => simp [bcryptCompare, hf, hp, hh, serverError]
      | some h =>
        cases hm : bc.compare p h with
        | false => simp [bcryptCompare, hf, hp, hh, hm]
        | true =>
          by_cases hk : secret = ""
          · simp [bcryptCompare, hf, hp, hh, hm, jwtSign, hk, serverError]
          · simp [bcryptCompare, hf, hp, hh, hm, jwtSign, hk]

/-- C7, counterexample: the same login body, with an email and no password, is
answered 500 "Server error" by a store where the email is registered (there is a
record, `bcrypt.compare` rejects instead of reporting a mismatch) and 400 "Invalid
credentials" by a store where it is not; likewise for the delivery login.  The
answer is not 400 although the password does not match, and it tells a registered
email from an unregistered one. -/
theorem login_without_password :
    findUser demoStore noPasswordLogin.email = some demoUser ∧
    (login demoBcrypt demoCodec demoSecret demoStore noPasswordLogin 1500).2
      = serverError "Illegal arguments" ∧
    (login demoBcrypt demoCodec demoSecret emptyStore noPasswordLogin 1500).2
      = ⟨400, message "Invalid credentials"⟩ ∧
    findDeliveryBoy demoStore noPasswordDeliveryLogin.email = some demoDeliveryBoy ∧
    (deliveryLogin demoBcrypt demoCodec demoSecret demoStore noPasswordDeliveryLogin 1500).2
      = serverError "Illegal arguments" ∧
    (deliveryLogin demoBcrypt demoCodec demoSecret emptyStore noPasswordDeliveryLogin 1500).2
      = ⟨400, message "Invalid credentials"⟩ := by
  refine ⟨by decide, by decide, by decide, by decide, by decide, by decide⟩

/-- The answer of `POST /login` when a user is found and the body has no password or
the user has no stored hash. -/
theorem login_server_error (bc : Bcrypt) (jw : JwtCodec) (secret : String) (s : Store)
    (b : LoginBody) (now : Nat) (u : UserDoc) (hf : findUser s b.email = some u)
    (hno : b.password = none ∨ u.password = none) :
    (login bc jw secret s b now).2 = serverError "Illegal arguments" := by
  rcases hno with hno | hno
  · simp [login, hf, hno, bcryptCompare]
  · cases hp : b.password <;> simp [login, hf, hno, hp, bcryptCompare]

/-- The answer of `POST /api/delivery/login` when a delivery boy is found and the body
has no password or the delivery boy has no stored hash. -/
theorem deliveryLogin_server_error (bc : Bcrypt) (jw : JwtCodec) (secret : String) (s : Store)
    (b : CredentialsBody) (now : Nat) (d : DeliveryBoyDoc)
    (hf : findDeliveryBoy s b.email = some d) (hno : b.password = none ∨ d.password = none) :
    (deliveryLogin bc jw secret s b now).2 = serverError "Illegal arguments" := by
  rcases hno with hno | hno
  · simp [deliveryLogin, hf, hno, bcryptCompare]
  · cases hp : b.password <;> simp [deliveryLogin, hf, hno, hp, bcryptCompare]

/-- The answer of `POST /login` to the right credentials. -/
theorem login_accepts (bc : Bcrypt) (jw : JwtCodec) (secret : String) (s : Store)
    (b : LoginBody) (now : Nat) (u : UserDoc) (p h : String) (hk : secret ≠ "")
    (hu : findUser s b.email = some u) (hp : b.password = some p)
    (hh : u.password = some h) (hm : bc.compare p h = true)
    (hr : b.role = none ∨ b.role = some u.role) :
    login bc jw secret s b now =
      (s, ⟨200, [("token", .val (.str (jw.encode
            ⟨⟨[("userId", JVal.oid u._id), ("email", JVal.ofOpt u.email),
                ("role", JVal.str u.role)].filter (fun kv => kv.2 != .undefined),
              now / 1000, now / 1000 + expiresIn24h⟩, secret⟩))),
          ("user", .obj [("id", .oid u._id), ("username", .ofOpt u.username),
            ("email", .ofOpt u.email), ("role", .str u.role)])]⟩) := by
  have hrole : (truthy b.role && some u.role != b.role) = false := by
    rcases hr with hr | hr <;> simp [hr, truthy]
  simp only [login, hu, hp, hh, bcryptCompare, hm, hrole, jwtSign, if_neg hk]
  simp

/-- The answer of `POST /api/delivery/login` to the right credentials. -/
theorem deliveryLogin_accepts (bc : Bcrypt) (jw : JwtCodec) (secret : String) (s : Store)
    (b : CredentialsBody) (now : Nat) (d : DeliveryBoyDoc) (p h : String) (hk : secret ≠ "")
    (hd : findDeliveryBoy s b.email = some d) (hp : b.password = some p)
    (hh : d.password = some h) (hm : bc.compare p h = true) :
    deliveryLogin bc jw secret s b now =
      (s, ⟨200, [("token", .val (.str (jw.encode
            ⟨⟨[("id", JVal.oid d._id), ("role", JVal.str "delivery")].filter
                (fun kv => kv.2 != .undefined),
              now / 1000, now / 1000 + expiresIn24h⟩, secret⟩))),
          ("deliveryBoy", .obj d.toJObj)]⟩) := by
  simp only [deliveryLogin, hd, hp, hh, bcryptCompare, hm, jwtSign, if_neg hk]
  simp

/-- C7, amended: on every store, `POST /login` answers 400 "Invalid credentials"
exactly when no user has the email of the body, or the body has a password, the
user found has a hash and `bcrypt.compare` reports that they do not match, with one
and the same answer in both cases; and `POST /api/delivery/login` likewise over the
delivery boys.  When a document is found and the body has no password (or the
document no hash) the answer is 500.  With a signing secret configured, on every
store where a user is found, the password matches and the role of the body is
absent or equal to the stored one, `/login` answers 200 with a token and leaves the
store as it was; and on every store where a delivery boy is found and the password
matches, so does the delivery login. -/
theorem invalid_credentials (bc : Bcrypt) (jw : JwtCodec) (secret : String) :
    (∀ (s : Store) (b : LoginBody) (now : Nat),
      (login bc jw secret s b now).2 = ⟨400, message "Invalid credentials"⟩ ↔
        (findUser s b.email = none ∨
          ∃ u p h, findUser s b.email = some u ∧ b.password = some p ∧ u.password = some h ∧
            bc.compare p h = false)) ∧
    (∀ (s : Store) (b : CredentialsBody) (now : Nat),
      (deliveryLogin bc jw secret s b now).2 = ⟨400, message "Invalid credentials"⟩ ↔
        (findDeliveryBoy s b.email = none ∨
          ∃ d p h, findDeliveryBoy s b.email = some d ∧ b.password = some p ∧
            d.password = some h ∧ bc.compare p h = false)) ∧
    (∀ (s : Store) (b : LoginBody) (now : Nat) (u : UserDoc),
      findUser s b.email = some u → (b.password = none ∨ u.password = none) →
      (login bc jw secret s b now).2 = serverError "Illegal arguments") ∧
    (∀ (s : Store) (b : CredentialsBody) (now : Nat) (d : DeliveryBoyDoc),
      findDeliveryBoy s b.email = some d → (b.password = none ∨ d.password = none) →
      (deliveryLogin bc jw secret s b now).2 = serverError "Illegal arguments") ∧
    (∀ (s : Store) (b : LoginBody) (now : Nat) (u : UserDoc) (p h : String),
      secret ≠ "" → findUser s b.email = some u → b.password = some p →
      u.password = some h → bc.compare p h = true →
      (b.role = none ∨ b.role = some u.role) →
      (login bc jw secret s b now).1 = s ∧
      (login bc jw secret s b now).2.status = 200 ∧
      ∃ tok, (login bc jw secret s b now).2.body.get? "token" = some (.val (.str tok))) ∧
    (∀ (s : Store) (b : CredentialsBody) (now : Nat) (d : DeliveryBoyDoc) (p h : String),
      secret ≠ "" → findDeliveryBoy s b.email = some d → b.password = some p →
      d.password = some h → bc.compare p h = true →
      (deliveryLogin bc jw secret s b now).1 = s ∧
      (deliveryLogin bc jw secret s b now).2.status = 200 ∧
      ∃ tok, (deliveryLogin bc jw secret s b now).2.body.get? "token"
        = some (.val (.str tok))) := by
  refine ⟨fun s b now => login_invalid_iff bc jw secret s b now,
    fun s b now => deliveryLogin_invalid_iff bc jw secret s b now,
    fun s b now u hf hno => login_server_error bc jw secret s b now u hf hno,
    fun s b now d hf hno => deliveryLogin_server_error bc jw secret s b now d hf hno, ?_, ?_⟩
  · intro s b now u p h hk hu hp hh hm hr
    rw [login_accepts bc jw secret s b now u p h hk hu hp hh hm hr]
    exact ⟨rfl, rfl, _, rfl⟩
  · intro s b now d p h hk hd hp hh hm
    rw [deliveryLogin_accepts bc jw secret s b now d p h hk hd hp hh hm]
    exact ⟨rfl, rfl, _, rfl⟩

/-- C7, witness: the right credentials get a token from `/login` on a store that
holds the user and no delivery boy, and from the delivery login on a store that
holds the delivery boy and no user; an unknown email gets 400 "Invalid credentials". -/
theorem invalid_credentials_witness :
    (login demoBcrypt demoCodec demoSecret userOnlyStore scenarioLogin 1500).2.status = 200 ∧
    (deliveryLogin demoBcrypt demoCodec demoSecret deliveryOnlyStore demoDeliveryLogin 1500).2.status
      = 200 ∧
    (login demoBcrypt demoCodec demoSecret emptyStore scenarioLogin 1500).2
      = ⟨400, message "Invalid credentials"⟩ :=
  ⟨((invalid_credentials demoBcrypt demoCodec demoSecret).2.2.2.2.1 userOnlyStore scenarioLogin
      1500 demoUser "p1" "$2a$p1" (by decide) (by decide) rfl rfl (by decide) (Or.inl rfl)).2.1,
    ((invalid_credentials demoBcrypt demoCodec demoSecret).2.2.2.2.2 deliveryOnlyStore
      demoDeliveryLogin 1500 demoDeliveryBoy "p2" "$2a$p2" (by decide) (by decide) rfl rfl
      (by decide)).2.1,
    ((invalid_credentials demoBcrypt demoCodec demoSecret).1 emptyStore scenarioLogin 1500).mpr
      (Or.inl (by decide))⟩

/-! ## C8: the gate `authenticateToken` -/

theorem jsSplit_no_sep (sep : Char) (l : List Char) (h : sep ∉ l) : jsSplit sep l = [l] := by
  induction l with
  | nil => rfl
  | cons c cs ih =>
    have hc : c ≠ sep := fun e => h (by simp [e])
    have hcs : sep ∉ cs := fun e => h (List.mem_cons_of_mem _ e)
    simp [jsSplit, hc, ih hcs]

/-- The token of the header `Bearer <token>` when the token has no space in it. -/
theorem headerToken_bearer (tok : String) (h : ' ' ∉ tok.toList) :
    headerToken (some ("Bearer " ++ tok)) = some tok := by
  have hne : ("Bearer " ++ tok) ≠ "" := by
    intro e
    have hlen := congrArg String.length e
    simp [String.length_append] at hlen
    exact absurd hlen.1 (by decide)
  have hl : ("Bearer " ++ tok).toList = 'B' :: 'e' :: 'a' :: 'r' :: 'e' :: 'r' :: ' ' :: tok.toList := by
    show ("Bearer " ++ tok).data = _
    rw [String.data_append]
    rfl
  simp only [headerToken, hne, if_false, hl]
  have hs : jsSplit ' ' tok.data = [tok.data] := jsSplit_no_sep ' ' tok.toList h
  simp [jsSplit, hs]

/-- A header without a space has no second part. -/
theorem headerToken_no_space (hd : String) (h : ' ' ∉ hd.toList) :
    truthy (headerToken (some hd)) = false := by
  unfold headerToken
  by_cases he : hd = ""
  · simp [he, truthy]
  · have hs : jsSplit ' ' hd.data = [hd.data] := jsSplit_no_sep ' ' hd.toList h
    simp [he, hs, truthy]

/-- A token of the JWS shape has no space and is not empty. -/
theorem jwsShape_no_space (tok : String) (h : jwsShape tok = true) :
    ' ' ∉ tok.toList ∧ tok ≠ "" := by
  unfold jwsShape at h
  rw [Bool.and_eq_true, List.all_eq_true] at h
  obtain ⟨hall, hcount⟩ := h
  constructor
  · intro hmem
    have := hall ' ' hmem
    revert this
    decide
  · intro e
    rw [e] at hcount
    revert hcount
    decide

theorem jwsShape_of_verify (jw : JwtCodec) (tok secret : String) (now : Nat) (c : JwtPayload)
    (h : jwtVerify jw tok secret now = .ok c) : jwsShape tok = true := by
  unfold jwtVerify at h
  by_cases hs : jwsShape tok = true
  · exact hs
  · simp [hs] at h

/-- C8: the gate answers 401 "Access token required" without calling `next` when
the header gives no token (no header, or a header without a space and so without a
second part, or an empty second part); with a token it answers 403 "Invalid token"
without calling `next` when `jwt.verify` fails, which it does for a token signed
with another key and for an expired one; otherwise it sets `req.user` to the
decoded payload, sends nothing and calls `next` once.  A header `Bearer <token>`
whose token verifies is let through. -/
theorem authenticateToken_outcomes (jw : JwtCodec) (secret : String) (now : Nat) :
    (∀ hd, truthy (headerToken hd) = false →
      authenticateToken jw secret now hd = ⟨some ⟨401, message "Access token required"⟩, none, 0⟩) ∧
    headerToken none = none ∧
    (∀ hd : String, ' ' ∉ hd.toList → truthy (headerToken (some hd)) = false) ∧
    (∀ hd tok e, headerToken hd = some tok → tok ≠ "" → jwtVerify jw tok secret now = .error e →
      authenticateToken jw secret now hd = ⟨some ⟨403, message "Invalid token"⟩, none, 0⟩) ∧
    (∀ tok t, jw.decode tok = some t → (t.key ≠ secret ∨ t.payload.exp ≤ now / 1000) →
      ∃ e, jwtVerify jw tok secret now = .error e) ∧
    (∀ hd tok c, headerToken hd = some tok → tok ≠ "" → jwtVerify jw tok secret now = .ok c →
      authenticateToken jw secret now hd = ⟨none, some c, 1⟩) ∧
    (∀ tok c, jwtVerify jw tok secret now = .ok c →
      authenticateToken jw secret now (some ("Bearer " ++ tok)) = ⟨none, some c, 1⟩) := by
  have hok : ∀ hd tok c, headerToken hd = some tok → tok ≠ "" →
      jwtVerify jw tok secret now = .ok c →
      authenticateToken jw secret now hd = ⟨none, some c, 1⟩ := by
    intro hd tok c ht hne hv
    simp [authenticateToken, ht, truthy, hne, hv]
  refine ⟨?_, rfl, headerToken_no_space, ?_, ?_, hok, ?_⟩
  · intro hd ht
    simp [authenticateToken, ht]
  · intro hd tok e ht hne hv
    simp [authenticateToken, ht, truthy, hne, hv]
  · intro tok t hdec hbad
    unfold jwtVerify
    by_cases hs : jwsShape tok = true
    · by_cases hk : secret = ""
      · simp [hs, hdec, hk]
      · rcases hbad with hkey | hexp
        · simp [hs, hdec, hk, hkey]
        · by_cases hkey : t.key = secret
          · simp [hs, hdec, hk, hkey, hexp]
          · simp [hs, hdec, hk, hkey]
    · simp [hs]
  · intro tok c hv
    obtain ⟨hsp, hne⟩ := jwsShape_no_space tok (jwsShape_of_verify jw tok secret now c hv)
    exact hok _ tok c (headerToken_bearer tok hsp) hne hv

/-- C8, witness: no header and a header of one word are answered 401, a token that
does not decode 403, and `Bearer h.p.s` before its expiry is let through with the
payload signed. -/
theorem authenticateToken_outcomes_witness :
    authenticateToken demoCodec demoSecret 2000 none
      = ⟨some ⟨401, message "Access token required"⟩, none, 0⟩ ∧
    authenticateToken demoCodec demoSecret 2000 (some "Bearer")
      = ⟨some ⟨401, message "Access token required"⟩, none, 0⟩ ∧
    authenticateToken demoCodec demoSecret 2000 (some "Bearer x.y.z")
      = ⟨some ⟨403, message "Invalid token"⟩, none, 0⟩ ∧
    authenticateToken demoCodec demoSecret 2000 (some ("Bearer " ++ "h.p.s"))
      = ⟨none, some demoSigned.payload, 1⟩ :=
  ⟨by decide, by decide, by decide,
    (authenticateToken_outcomes demoCodec demoSecret 2000).2.2.2.2.2.2 "h.p.s" demoSigned.payload
      rfl⟩

/-! ## C9: a successful registration -/

/-- C9: when `POST /register` answers 201, the body carried a password, no user had
the email, and the store gained one user at the end of the collection: with the
username and email of the body, the role `"user"` when the body has no role and the
role of the body when that is one of `"user"`, `"delivery"`, `"owner"`, and as
password `bcrypt.hash(password, 10)`, which is not the password itself as long as
bcrypt does not return its input; the answer is the message "User created
successfully" alone. -/
theorem register_success (bc : Bcrypt) (s : Store) (b : RegisterBody) (r : Nat)
    (h : (register bc s b r).2.status = 201) (hfix : ∀ p, bc.hash p 10 r ≠ p) :
    ∃ p role, b.password = some p ∧ findUser s b.email = none ∧
      register bc s b r =
        ({ s with users := s.users ++ [⟨s.nextId, b.username, b.email, some (bc.hash p 10 r), role⟩],
                  nextId := s.nextId + 1 },
          ⟨201, message "User created successfully"⟩) ∧
      (register bc s b r).1.users.length = s.users.length + 1 ∧
      (b.role = none → role = "user") ∧
      (∀ x ∈ roleEnum, b.role = some x → role = x) ∧
      role ∈ roleEnum ∧
      some (bc.hash p 10 r) ≠ b.password ∧
      (register bc s b r).2.body.allKeys = ["message"] := by
  unfold register at h ⊢
  cases hf : findUser s b.email with
  | some u => simp [hf] at h
  | none =>
    cases hp : b.password with
    | none => simp [hf, hp, bcryptHash, serverError] at h
    | some p =>
      by_cases hrole : orDefault b.role "user" ∈ roleEnum
      · refine ⟨p, orDefault b.role "user", rfl, rfl, ?_, ?_, ?_, ?_, hrole, ?_, ?_⟩
        · simp [bcryptHash, hrole]
        · simp [bcryptHash, hrole]
        · intro hn
          simp [hn, orDefault]
        · intro x hx hb
          have hx0 : x ≠ "" := by
            intro e
            rw [e] at hx
            revert hx
            decide
          simp [hb, orDefault, hx0]
        · intro e
          exact hfix p (Option.some.inj e)
        · simp [bcryptHash, hrole, JBody.allKeys, message]
      · simp [hf, hp, bcryptHash, hrole, serverError] at h

theorem demoBcrypt_no_fixpoint (r : Nat) : ∀ p, demoBcrypt.hash p 10 r ≠ p := by
  intro p e
  have hlen := congrArg String.length e
  simp [demoBcrypt, String.length_append] at hlen
  revert hlen
  decide

/-- C9, witness: the registration scenario on the empty store. -/
theorem register_success_witness :
    ∃ p role, scenarioBody.password = some p ∧ findUser emptyStore scenarioBody.email = none ∧
      register demoBcrypt emptyStore scenarioBody 0 =
        ({ emptyStore with
            users := emptyStore.users ++ [⟨emptyStore.nextId, scenarioBody.username,
              scenarioBody.email, some (demoBcrypt.hash p 10 0), role⟩],
            nextId := emptyStore.nextId + 1 },
          ⟨201, message "User created successfully"⟩) ∧
      (register demoBcrypt emptyStore scenarioBody 0).1.users.length
        = emptyStore.users.length + 1 ∧
      (scenarioBody.role = none → role = "user") ∧
      (∀ x ∈ roleEnum, scenarioBody.role = some x → role = x) ∧
      role ∈ roleEnum ∧
      some (demoBcrypt.hash p 10 0) ≠ scenarioBody.password ∧
      (register demoBcrypt emptyStore scenarioBody 0).2.body.allKeys = ["message"] :=
  register_success demoBcrypt emptyStore scenarioBody 0 (by decide) (demoBcrypt_no_fixpoint 0)

/-! ## C10: the lifetime of a token -/

/-- The token in an answer of `POST /login` was signed over the claims of a stored user. -/
theorem login_token (bc : Bcrypt) (jw : JwtCodec) (secret : String) (s : Store) (b : LoginBody)
    (now : Nat) (t : String)
    (h : (login bc jw secret s b now).2.body.get? "token" = some (.val (.str t))) :
    ∃ u : UserDoc, jwtSign jw [("userId", .oid u._id), ("email", .ofOpt u.email),
      ("role", .str u.role)] secret now = .ok t := by
  unfold login at h
  cases hf : findUser s b.email with
  | none => simp [hf, JBody.get?, message] at h
  | some u =>
    simp only [hf] at h
    cases hc : bcryptCompare bc b.password u.password with
    | error e => simp [hc, serverError, JBody.get?] at h
    | ok isMatch =>
      simp only [hc] at h
      cases isMatch with
      | false => simp [JBody.get?, message] at h
      | true =>
        by_cases hr : (truthy b.role && some u.role != b.role) = true
        · simp [hr, JBody.get?, message] at h
        · cases hs : jwtSign jw [("userId", .oid u._id), ("email", .ofOpt u.email),
              ("role", .str u.role)] secret now with
          | error e => simp [hr, hs, serverError, JBody.get?] at h
          | ok tok =>
            simp [hr, hs, JBody.get?] at h
            exact ⟨u, by rw [hs, h]⟩

/-- The token in an answer of `POST /api/delivery/login` was signed over the claims
of a stored delivery boy. -/
theorem deliveryLogin_token (bc : Bcrypt) (jw : JwtCodec) (secret : String) (s : Store)
    (b : CredentialsBody) (now : Nat) (t : String)
    (h : (deliveryLogin bc jw secret s b now).2.body.get? "token" = some (.val (.str t))) :
    ∃ d : DeliveryBoyDoc,
      jwtSign jw [("id", .oid d._id), ("role", .str "delivery")] secret now = .ok t := by
  unfold deliveryLogin at h
  cases hf : findDeliveryBoy s b.email with
  | none => simp [hf, JBody.get?, message] at h
  | some d =>
    simp only [hf] at h
    cases hc : bcryptCompare bc b.password d.password with
    | error e => simp [hc, serverError, JBody.get?] at h
    | ok isMatch =>
      simp only [hc] at h
      cases isMatch with
      | false => simp [JBody.get?, message] at h
      | true =>
        cases hs : jwtSign jw [("id", .oid d._id), ("role", .str "delivery")] secret now with
        | error e => simp [hs, serverError, JBody.get?] at h
        | ok tok =>
          simp [hs, JBody.get?] at h
          exact ⟨d, by rw [hs, h]⟩

/-- The token in an answer of `POST /owner/login` was signed over the claims of an owner. -/
theorem ownerLogin_token (bc : Bcrypt) (jw : JwtCodec) (secret : String) (s : Store)
    (b : CredentialsBody) (r now : Nat) (t : String)
    (h : (ownerLogin bc jw secret s b r now).2.body.get? "token" = some (.val (.str t))) :
    ∃ o : OwnerDoc, jwtSign jw [("userId", .oid o._id), ("email", .ofOpt o.email),
      ("role", .str "owner")] secret now = .ok t := by
  unfold ownerLogin at h
  by_cases hpair : b.email = some ownerEmail ∧ b.password = some ownerPassword
  · obtain ⟨he, hp⟩ := hpair
    by_cases hk : secret = ""
    · cases hf : findOwner s (some ownerEmail) <;>
        simp [he, hp, hf, bcryptHash, jwtSign, hk, serverError, JBody.get?] at h
    · cases hf : findOwner s (some ownerEmail) with
      | none =>
        simp [he, hp, hf, bcryptHash, jwtSign, hk, JBody.get?] at h
        exact ⟨⟨s.nextId, some "Owner", some ownerEmail,
          some (bc.hash ownerPassword 10 r), now⟩, by simp [jwtSign, hk, ← h]⟩
      | some o =>
        simp [he, hp, hf, jwtSign, hk, JBody.get?] at h
        exact ⟨o, by simp [jwtSign, hk, ← h]⟩
  · simp [hpair, JBody.get?, message] at h

/-- C10, counterexample: the token `POST /login` issues at clock 1500 ms is turned
away with 403 at clock 86401000 ms, half a second before 24 hours have passed; and
the token issued at clock 1000 ms is turned away at 1000 ms + 24 h exactly. -/
theorem token_rejected_within_24h :
    (login demoBcrypt demoCodec demoSecret demoStore scenarioLogin 1500).2.body.get? "token"
      = some (.val (.str "h.p.s")) ∧
    1500 ≤ 86401000 ∧ 86401000 < 1500 + 24 * 60 * 60 * 1000 ∧
    authenticateToken demoCodec demoSecret 86401000 (some "Bearer h.p.s")
      = ⟨some ⟨403, message "Invalid token"⟩, none, 0⟩ ∧
    (login demoBcrypt demoCodec demoSecret demoStore scenarioLogin 1000).2.body.get? "token"
      = some (.val (.str "h.p.s")) ∧
    authenticateToken demoCodec demoSecret (1000 + 24 * 60 * 60 * 1000) (some "Bearer h.p.s")
      = ⟨some ⟨403, message "Invalid token"⟩, none, 0⟩ := by
  refine ⟨by decide, by decide, by decide, by decide, by decide, by decide⟩

/-- C10, amended: a token signed at clock `issued` (ms) with `expiresIn: "24h"`
carries `iat = issued / 1000` and `exp = iat + 86400` (whole seconds).  Presented as
`Bearer <token>` at clock `now` under the same secret, the gate lets it through
with the payload that was signed when `now / 1000 < exp` and answers 403 when
`exp ≤ now / 1000`.  So it is accepted from issuance up to one second before
`issued + 24 h` and turned away from `issued + 24 h` on.  The tokens of the three
login routes are signed this way over `userId`/`id`, `email` (user and owner) and
`role`. -/
theorem token_lifetime (bc : Bcrypt) (jw : JwtCodec) (secret : String) (claims : JObj)
    (issued now : Nat) (tok : String)
    (hsign : jwtSign jw claims secret issued = .ok tok)
    (hshape : jwsShape tok = true)
    (hdec : jw.decode tok = some ⟨⟨claims.filter (fun kv => kv.2 != .undefined),
      issued / 1000, issued / 1000 + expiresIn24h⟩, secret⟩) :
    (now / 1000 < issued / 1000 + 86400 →
      authenticateToken jw secret now (some ("Bearer " ++ tok)) =
        ⟨none, some ⟨claims.filter (fun kv => kv.2 != .undefined), issued / 1000,
          issued / 1000 + 86400⟩, 1⟩) ∧
    (issued / 1000 + 86400 ≤ now / 1000 →
      authenticateToken jw secret now (some ("Bearer " ++ tok)) =
        ⟨some ⟨403, message "Invalid token"⟩, none, 0⟩) ∧
    (now + 1000 ≤ issued + 86400000 → now / 1000 < issued / 1000 + 86400) ∧
    (issued + 86400000 ≤ now → issued / 1000 + 86400 ≤ now / 1000) ∧
    (∀ s b t, (login bc jw secret s b issued).2.body.get? "token" = some (.val (.str t)) →
      ∃ u : UserDoc, jwtSign jw [("userId", .oid u._id), ("email", .ofOpt u.email),
        ("role", .str u.role)] secret issued = .ok t) ∧
    (∀ s b t, (deliveryLogin bc jw secret s b issued).2.body.get? "token" = some (.val (.str t)) →
      ∃ d : DeliveryBoyDoc,
        jwtSign jw [("id", .oid d._id), ("role", .str "delivery")] secret issued = .ok t) ∧
    (∀ s b r t, (ownerLogin bc jw secret s b r issued).2.body.get? "token" = some (.val (.str t)) →
      ∃ o : OwnerDoc, jwtSign jw [("userId", .oid o._id), ("email", .ofOpt o.email),
        ("role", .str "owner")] secret issued = .ok t) := by
  have hk : secret ≠ "" := by
    intro e
    simp [jwtSign, e] at hsign
  obtain ⟨hsp, hne⟩ := jwsShape_no_space tok hshape
  have hgate : authenticateToken jw secret now (some ("Bearer " ++ tok)) =
      match jwtVerify jw tok secret now with
      | .error _ => ⟨some ⟨403, message "Invalid token"⟩, none, 0⟩
      | .ok user => ⟨none, some user, 1⟩ := by
    simp [authenticateToken, headerToken_bearer tok hsp, truthy, hne]
  refine ⟨?_, ?_, ?_, ?_, fun s b t h => login_token bc jw secret s b issued t h,
    fun s b t h => deliveryLogin_token bc jw secret s b issued t h,
    fun s b r t h => ownerLogin_token bc jw secret s b r issued t h⟩
  · intro hlt
    have hlt2 : ¬ (issued / 1000 + 86400 ≤ now / 1000) := by omega
    rw [hgate]
    simp [jwtVerify, hshape, hdec, hk, hlt2, expiresIn24h]
  · intro hge
    rw [hgate]
    simp [jwtVerify, hshape, hdec, hk, hge, expiresIn24h]
  · intro h; omega
  · intro h; omega

/-- C10, witness: the token `demoUser` is issued at clock 1500 ms is accepted one
millisecond before `exp` and carries the claims that were signed. -/
theorem token_lifetime_witness :
    authenticateToken demoCodec demoSecret 86400999 (some ("Bearer " ++ "h.p.s")) =
      ⟨none, some demoSigned.payload, 1⟩ :=
  (token_lifetime demoBcrypt demoCodec demoSecret
    [("userId", .oid 0), ("email", .str "a@x.com"), ("role", .str "user")] 1500 86400999 "h.p.s"
    rfl (by decide) (by decide)).1 (by decide)

end BackendLogin
